import Mathlib

/-!
Shallow embedding of the session-and-permission authorization core of the
CMS backend (`src/api/cms`): the session repository, the user repository
operations it needs, the identity-resolution dependency, the permission
guards, and the login flow.

Modelling conventions:
  * UUIDs are modelled as `Nat`; timestamps are `Int` seconds; `INTERVAL
    '15 minutes'` is `15 * 60` seconds.
  * A database table is a `List` of row structures; a SQL `UPDATE`/`DELETE`
    becomes a pure function returning the new table; asynchronous calls
    become plain function application (the code holds no in-process state).
  * Raised exceptions become `Except Err` results; the `Err` constructors
    mirror the exception classes and the handlers that assign HTTP status
    codes.
  * External collaborators (hashlib sha3_256 hexdigest, argon2 password
    verification, `ipaddress.ip_address` parsing, PostgreSQL calendar-month
    interval arithmetic) are parameters of the embedded functions, since
    their internals are outside this repository.
-/

instance {ε α : Type} [DecidableEq ε] [DecidableEq α] : DecidableEq (Except ε α) :=
  fun x y =>
    match x, y with
    | Except.ok a, Except.ok b =>
      if h : a = b then isTrue (by rw [h])
      else isFalse (by intro hc; cases hc; exact h rfl)
    | Except.ok _, Except.error _ => isFalse (by intro hc; cases hc)
    | Except.error _, Except.ok _ => isFalse (by intro hc; cases hc)
    | Except.error e, Except.error f =>
      if h : e = f then isTrue (by rw [h])
      else isFalse (by intro hc; cases hc; exact h rfl)

/-- Domain errors, mirroring the exception classes in
`cms/auth/exceptions.py`, `cms/sessions/exceptions.py`,
`cms/users/exceptions.py`. Exceptions carrying a
`context = \x7b"parameter": p\x7d` map carry that parameter here. -/
inductive Err where
  | credentialsNotFound : Err
  | sessionInvalidOrExpired : Err
  | notEnoughPermissions : Err
  | sessionNotFound (parameter : String) : Err
  | userNotFound (parameter : String) : Err
  | passwordIncorrect : Err
deriving DecidableEq, Repr

/-- HTTP status code attached to each error by the exception handlers in
`cms/auth/exceptions.py` and the per-view response mapping in
`cms/auth/views.py` and `cms/sessions/views.py`. -/
def statusOf : Err → Nat
  | .credentialsNotFound => 401
  | .sessionInvalidOrExpired => 403
  | .notEnoughPermissions => 403
  | .sessionNotFound _ => 404
  | .userNotFound _ => 404
  | .passwordIncorrect => 400

/-- A row of the `sessions` table (migration `202506031156_initial`):
session_id, user_id, ip_addr (a stored hash), expires_at, is_terminated. -/
structure Session where
  session_id : Nat
  user_id : Nat
  ip_addr : String
  expires_at : Int
  is_terminated : Bool
deriving DecidableEq, Repr

/-- A row of the `users` table, restricted to the columns the session and
auth flows read (`cms/users/repository.py`). -/
structure User where
  id : Nat
  email_id : String
  password : String
  contact_no : String
  profile_image_id : Option Nat
  is_active : Bool
deriving DecidableEq, Repr

/-- A row of the `user_permissions` association table. -/
structure UserPermission where
  user_id : Nat
  permission : String
deriving DecidableEq, Repr

/-- Code-point order on strings, modelling the PostgreSQL `ORDER BY`
collation on permission slugs (an external detail of the database). -/
def strListLe : List Char → List Char → Bool
  | [], _ => true
  | _ :: _, [] => false
  | a :: as, b :: bs =>
    if a.toNat < b.toNat then true
    else if b.toNat < a.toNat then false
    else strListLe as bs

/-- Insertion of a string into a list sorted by `strListLe`. -/
def insertSorted (a : String) : List String → List String
  | [] => [a]
  | b :: rest =>
    if strListLe a.data b.data then a :: b :: rest else b :: insertSorted a rest

/-- Ascending sort by `strListLe`, modelling `ORDER BY permission`. -/
def sortSlugs : List String → List String
  | [] => []
  | a :: rest => insertSorted a (sortSlugs rest)

/-- Python `str.lower`, modelled character-wise for the ASCII range (an
external stdlib method; the emails in this system are ASCII). -/
def py_lower (s : String) : String :=
  String.mk (s.data.map Char.toLower)

/-- `hash_string` from `cms/utils/hash.py`: sha3_256 hexdigest of the
input. The digest itself is external (hashlib), so it is a parameter. -/
def hash_string (sha3 : String → String) (input_string : String) : String :=
  sha3 input_string

/-- `verify_hash` from `cms/utils/hash.py`: recompute and compare. -/
def verify_hash (sha3 : String → String) (input_string : String)
    (hash_value : String) : Bool :=
  hash_string sha3 input_string == hash_value

/-- The request data `get_client_ip` reads: the two proxy headers and the
direct connection host (`none` when `request.client` is `None`). -/
structure RequestInfo where
  x_forwarded_for : Option String
  x_real_ip : Option String
  client_host : Option String
deriving Repr

/-- Python header truthiness: `headers.get(...)` is falsy when absent or
empty, so an empty-string header falls through like a missing one. -/
def headerVal : Option String → Option String
  | some s => if s.isEmpty then none else some s
  | none => none

/-- `_validate_ip` from `cms/sessions/utils.py`: parse via
`ipaddress.ip_address` (external, passed as `ip_parse`, returning the
normalized string form on success) and normalize failures to "unknown". -/
def validate_ip (ip_parse : String → Option String) (ip_str : String) : String :=
  match ip_parse ip_str with
  | some normalized => normalized
  | none => "unknown"

/-- `get_client_ip` from `cms/sessions/utils.py`: X-Forwarded-For first
entry, else X-Real-IP, else the direct client host, else "unknown". -/
def get_client_ip (ip_parse : String → Option String) (r : RequestInfo) : String :=
  match headerVal r.x_forwarded_for with
  | some forwarded_for =>
      validate_ip ip_parse (((forwarded_for.splitOn ",").headD "").trim)
  | none =>
    match headerVal r.x_real_ip with
    | some real_ip => validate_ip ip_parse real_ip.trim
    | none =>
      let client_ip := match r.client_host with
        | some h => h
        | none => "unknown"
      if client_ip ≠ "unknown" then validate_ip ip_parse client_ip else "unknown"

/-- `SessionRepository.create`: INSERT with `expires_at` defaulting to
now + 15 minutes; a foreign-key violation on `fk_sessions_users` (user id
not present in `users`) surfaces as `UserNotFound`. The fresh `session_id`
(`gen_random_uuid()`) is a parameter. Returns the query result together
with the new table state. -/
def SessionRepository.create (users : List User) (sessions : List Session)
    (now : Int) (new_session_id : Nat) (user_id : Nat) (ip_addr : String) :
    Except Err (Nat × Int) × List Session :=
  if users.any (fun u => u.id == user_id) then
    (Except.ok (new_session_id, now + 15 * 60),
     sessions ++ [{ session_id := new_session_id, user_id := user_id,
                    ip_addr := ip_addr, expires_at := now + 15 * 60,
                    is_terminated := false }])
  else
    (Except.error (Err.userNotFound "user_id"), sessions)

/-- The row filter of `SessionRepository.get_by_id`:
`session_id = $1 AND expires_at > NOW() AND is_terminated = FALSE`. -/
def sessionValidFilter (session_id : Nat) (now : Int) (s : Session) : Bool :=
  s.session_id == session_id && decide (now < s.expires_at) && s.is_terminated == false

/-- `SessionRepository.get_by_id`: SELECT with the validity filter;
`SessionNotFound` when no row matches. -/
def SessionRepository.get_by_id (sessions : List Session) (now : Int)
    (session_id : Nat) : Except Err Session :=
  match sessions.find? (sessionValidFilter session_id now) with
  | some record => Except.ok record
  | none => Except.error (Err.sessionNotFound "session_id")

/-- `SessionRepository.terminate`: `UPDATE sessions SET is_terminated =
TRUE WHERE session_id = $1` — note there is no validity condition in the
WHERE clause. The repository raises `SessionNotFound` unless the command
tag is exactly "UPDATE 1", i.e. unless exactly one row matched. -/
def SessionRepository.terminate (sessions : List Session) (session_id : Nat) :
    Except Err Unit × List Session :=
  let updated := sessions.map (fun s =>
    if s.session_id == session_id then { s with is_terminated := true } else s)
  if sessions.countP (fun s => s.session_id == session_id) == 1 then
    (Except.ok (), updated)
  else
    (Except.error (Err.sessionNotFound "session_id"), updated)

/-- `SessionRepository.clean_expired`: `DELETE FROM sessions WHERE
expires_at + INTERVAL '1 month' < now()`. Calendar-month addition is
external (PostgreSQL), passed as `addMonth`. -/
def SessionRepository.clean_expired (addMonth : Int → Int)
    (sessions : List Session) (now : Int) : List Session :=
  sessions.filter (fun s => !(decide (addMonth s.expires_at < now)))

/-- `SessionRepository.refresh`: single conditional UPDATE setting
`expires_at = now() + INTERVAL '15 minutes'` on the row that matches the
validity filter; `fetchval` of the RETURNING clause is `None` (here: the
error branch) when no row matched. -/
def SessionRepository.refresh (sessions : List Session) (now : Int)
    (session_id : Nat) : Except Err Int × List Session :=
  let updated := sessions.map (fun s =>
    if sessionValidFilter session_id now s then { s with expires_at := now + 15 * 60 } else s)
  if sessions.any (sessionValidFilter session_id now) then
    (Except.ok (now + 15 * 60), updated)
  else
    (Except.error (Err.sessionNotFound "session_id"), updated)

/-- `UserRepository.get_by_email_id`: SELECT by email with
`is_active = TRUE`; `UserNotFound` with parameter "email_id" otherwise. -/
def UserRepository.get_by_email_id (users : List User) (email_id : String) :
    Except Err User :=
  match users.find? (fun u => u.email_id == email_id && u.is_active) with
  | some record => Except.ok record
  | none => Except.error (Err.userNotFound "email_id")

/-- `UserRepository.get_user_permissions`: permissions of a user, sorted
by permission slug; when the user has none, a second query checks the user
exists and is active, raising `UserNotFound` otherwise. -/
def UserRepository.get_user_permissions (user_permissions : List UserPermission)
    (users : List User) (user_id : Nat) : Except Err (List String) :=
  let records := sortSlugs ((user_permissions.filter
      (fun up => up.user_id == user_id)).map (fun up => up.permission))
  if records.length == 0 then
    if users.any (fun u => u.id == user_id && u.is_active) then
      Except.ok records
    else
      Except.error (Err.userNotFound "user_id")
  else
    Except.ok records

/-- The `Session` pydantic model returned by the `get_session` dependency:
the resolved identity (session id, user id, fresh permission set). -/
structure AuthSession where
  session_id : Nat
  user_id : Nat
  permissions : List String
deriving DecidableEq, Repr

/-- `get_session` from `cms/auth/dependency.py`: load the valid session,
load the user's permission set, then compare the hash of the requesting
client's IP with the stored `ip_addr` hash. `SessionNotFound` and
`UserNotFound` from the two loads, and an IP-hash mismatch, all collapse
into the single `SessionInvalidOrExpired` error. -/
def get_session (sha3 : String → String) (ip_parse : String → Option String)
    (sessions : List Session) (users : List User)
    (user_permissions : List UserPermission) (now : Int)
    (request : RequestInfo) (session_id : Nat) : Except Err AuthSession :=
  match SessionRepository.get_by_id sessions now session_id with
  | Except.error (Err.sessionNotFound _) => Except.error Err.sessionInvalidOrExpired
  | Except.error (Err.userNotFound _) => Except.error Err.sessionInvalidOrExpired
  | Except.error e => Except.error e
  | Except.ok session =>
    match UserRepository.get_user_permissions user_permissions users session.user_id with
    | Except.error (Err.sessionNotFound _) => Except.error Err.sessionInvalidOrExpired
    | Except.error (Err.userNotFound _) => Except.error Err.sessionInvalidOrExpired
    | Except.error e => Except.error e
    | Except.ok permissions =>
      if verify_hash sha3 (get_client_ip ip_parse request) session.ip_addr then
        Except.ok { session_id := session.session_id,
                    user_id := session.user_id,
                    permissions := permissions }
      else
        Except.error Err.sessionInvalidOrExpired

/-- `RequiresPermission.__call__`: the identity must hold every required
permission (`all(...)` over the declared tuple). -/
def RequiresPermission.call (required_permissions : List String)
    (user_perms : List String) : Except Err Unit :=
  if required_permissions.all (fun permission => user_perms.contains permission) then
    Except.ok ()
  else
    Except.error Err.notEnoughPermissions

/-- `RequiresAnyOfGivenPermission.__call__`: iterate the declared groups
in order; return the first group all of whose members the identity holds;
raise `NotEnoughPermissions` after the loop otherwise. -/
def RequiresAnyOfGivenPermission.call (permissions : List (List String))
    (user_perms : List String) : Except Err (List String) :=
  match permissions with
  | [] => Except.error Err.notEnoughPermissions
  | group :: rest =>
    if group.all (fun permission_name => user_perms.contains permission_name) then
      Except.ok group
    else
      RequiresAnyOfGivenPermission.call rest user_perms

/-- The `LoginResponse` body of `POST /auth/login`. -/
structure LoginResponse where
  session_id : Nat
  user_id : Nat
  profile_image_id : Option Nat
  permissions : List String
  expires_at : Int
deriving DecidableEq, Repr

/-- `login` from `cms/auth/views.py`: look up the user by the lowercased
email (`UserNotFound` → 404), verify the password with argon2 (a mismatch
raises, mapped to the `PasswordIncorrect` 400 response), create a session
bound to the hash of the client IP, load the permission set, and return
the response. Returns the result together with the session-table state. -/
def login (argon2_verify : String → String → Bool) (sha3 : String → String)
    (ip_parse : String → Option String) (users : List User)
    (sessions : List Session) (user_permissions : List UserPermission)
    (now : Int) (new_session_id : Nat) (request : RequestInfo)
    (email_id password : String) : Except Err LoginResponse × List Session :=
  match UserRepository.get_by_email_id users (py_lower email_id) with
  | Except.error e => (Except.error e, sessions)
  | Except.ok user_record =>
    if argon2_verify user_record.password password then
      match SessionRepository.create users sessions now new_session_id
          user_record.id (hash_string sha3 (get_client_ip ip_parse request)) with
      | (Except.error e, db) => (Except.error e, db)
      | (Except.ok (sid, exp), db) =>
        match UserRepository.get_user_permissions user_permissions users user_record.id with
        | Except.error e => (Except.error e, db)
        | Except.ok permissions =>
          (Except.ok { session_id := sid, user_id := user_record.id,
                       profile_image_id := user_record.profile_image_id,
                       permissions := permissions, expires_at := exp }, db)
    else
      (Except.error Err.passwordIncorrect, sessions)

/-! ## Helper lemmas -/

/-- A map that fixes every element of a list leaves the list unchanged. -/
lemma map_eq_self_of_fixes {α : Type} (l : List α) (f : α → α)
    (h : ∀ x ∈ l, f x = x) : l.map f = l := by
  induction l with
  | nil => rfl
  | cons a rest ih =>
    simp only [List.map_cons]
    rw [h a (List.mem_cons_self a rest), ih (fun x hx => h x (List.mem_cons_of_mem a hx))]

/-- The any-of guard is a first-match search over the declared groups. -/
lemma any_of_call_eq_find (groups : List (List String)) (user_perms : List String) :
    RequiresAnyOfGivenPermission.call groups user_perms =
      match groups.find? (fun g => g.all (fun p => user_perms.contains p)) with
      | some g => Except.ok g
      | none => Except.error Err.notEnoughPermissions := by
  induction groups with
  | nil => rfl
  | cons g rest ih =>
    have hstep : RequiresAnyOfGivenPermission.call (g :: rest) user_perms =
        if (g.all (fun p => user_perms.contains p)) = true then Except.ok g
        else RequiresAnyOfGivenPermission.call rest user_perms := rfl
    cases h : g.all (fun p => user_perms.contains p) with
    | true =>
      have hr : List.find? (fun g => g.all (fun p => user_perms.contains p)) (g :: rest) =
          some g :=
        List.find?_cons_of_pos _ h
      rw [hstep, if_pos h, hr]
    | false =>
      have hr : List.find? (fun g => g.all (fun p => user_perms.contains p)) (g :: rest) =
          List.find? (fun g => g.all (fun p => user_perms.contains p)) rest :=
        List.find?_cons_of_neg _
          (by show ¬(g.all (fun p => user_perms.contains p)) = true; rw [h]; decide)
      rw [hstep, if_neg (by rw [h]; decide), hr, ih]

/-! ## Claims about the permission guards -/

/-- C3: the any-of-given-sets check returns the first declared group whose
members all belong to the identity's permission set, raises
NotEnoughPermissions when no group is fully satisfied, and on groups
given in the spec examples behaves exactly as the spec states. -/
theorem c3_any_of_first_match :
    (∀ (groups : List (List String)) (user_perms : List String) (g : List String),
        RequiresAnyOfGivenPermission.call groups user_perms = Except.ok g ↔
          (g.all (fun p => user_perms.contains p) = true ∧
           ∃ pre post, groups = pre ++ g :: post ∧
             ∀ g' ∈ pre, g'.all (fun p => user_perms.contains p) = false))
    ∧ (∀ (groups : List (List String)) (user_perms : List String),
        (∀ g ∈ groups, g.all (fun p => user_perms.contains p) = false) →
          RequiresAnyOfGivenPermission.call groups user_perms =
            Except.error Err.notEnoughPermissions)
    ∧ RequiresAnyOfGivenPermission.call [["a"], ["b", "c"]] ["b", "c"] =
        Except.ok ["b", "c"]
    ∧ RequiresAnyOfGivenPermission.call [["a"], ["b", "c"]] ["a", "b"] =
        Except.ok ["a"] := by
  refine ⟨?_, ?_, by decide, by decide⟩
  · intro groups user_perms g
    rw [any_of_call_eq_find]
    constructor
    · intro h
      cases hf : groups.find? (fun g => g.all (fun p => user_perms.contains p)) with
      | none => rw [hf] at h; cases h
      | some g0 =>
        rw [hf] at h
        cases h
        rw [List.find?_eq_some] at hf
        obtain ⟨hsat, pre, post, heq, hpre⟩ := hf
        exact ⟨hsat, pre, post, heq, fun g' hg' => by simpa using hpre g' hg'⟩
    · rintro ⟨hsat, pre, post, heq, hpre⟩
      have hf : groups.find? (fun g => g.all (fun p => user_perms.contains p)) = some g :=
        List.find?_eq_some.mpr ⟨hsat, pre, post, heq, fun g' hg' => by simpa using hpre g' hg'⟩
      rw [hf]
  · intro groups user_perms hall
    rw [any_of_call_eq_find]
    have hf : groups.find? (fun g => g.all (fun p => user_perms.contains p)) = none :=
      List.find?_eq_none.mpr (by simpa using hall)
    rw [hf]

theorem c3_witness :
    RequiresAnyOfGivenPermission.call [["z"]] [] = Except.error Err.notEnoughPermissions :=
  c3_any_of_first_match.2.1 [["z"]] [] (by decide)

/-- C4 counterexample: the claim says a requirement consisting solely of
empty groups rejects every identity; in the code `all(...)` over an empty
group is vacuously true, so the single empty group is matched and
returned even for an identity with no permissions at all. -/
theorem c4_counterexample_empty_groups :
    RequiresAnyOfGivenPermission.call [[]] [] = Except.ok [] := by decide

/-- C4 (amended): an empty declared group matches every identity
vacuously: a requirement whose first group is empty returns the empty
group, and any requirement containing an empty group never raises
NotEnoughPermissions. -/
theorem c4_empty_group_matches :
    (∀ (rest : List (List String)) (user_perms : List String),
        RequiresAnyOfGivenPermission.call ([] :: rest) user_perms = Except.ok [])
    ∧ (∀ (groups : List (List String)) (user_perms : List String), [] ∈ groups →
        ∃ g, RequiresAnyOfGivenPermission.call groups user_perms = Except.ok g) := by
  constructor
  · intro rest user_perms
    rfl
  · intro groups user_perms hmem
    rw [any_of_call_eq_find]
    cases hf : groups.find? (fun g => g.all (fun p => user_perms.contains p)) with
    | some g0 => exact ⟨g0, rfl⟩
    | none =>
      rw [List.find?_eq_none] at hf
      exact absurd (by simp : (([] : List String).all
        (fun p => user_perms.contains p)) = true) (by simpa using hf [] hmem)

theorem c4_witness :
    ∃ g, RequiresAnyOfGivenPermission.call [["a"], []] ["q"] = Except.ok g :=
  c4_empty_group_matches.2 [["a"], []] ["q"] (by decide)

/-- C9: the all-of permission check with an empty list of required
permissions admits every identity: `all(...)` over zero required
permissions is vacuously true, so NotEnoughPermissions is never raised. -/
theorem c9_empty_all_of_admits_all :
    ∀ user_perms : List String, RequiresPermission.call [] user_perms = Except.ok () :=
  fun _ => rfl

/-! ## Claims about the session store -/

/-- The validity filter unfolded to propositions. -/
lemma sessionValidFilter_iff (session_id : Nat) (now : Int) (s : Session) :
    sessionValidFilter session_id now s = true ↔
      (s.session_id = session_id ∧ now < s.expires_at ∧ s.is_terminated = false) := by
  simp [sessionValidFilter, and_assoc]

/-- C1: `get_by_id` returns a session exactly when a non-terminated,
unexpired session with the requested id is stored; every failure — the id
being absent, the session expired, or the session terminated — raises the
one identical SessionNotFound error, so the rejection causes are
indistinguishable to the caller. -/
theorem c1_get_valid_characterization (sessions : List Session) (now : Int)
    (session_id : Nat) (huniq : (sessions.map Session.session_id).Nodup) :
    (∀ S : Session,
        SessionRepository.get_by_id sessions now session_id = Except.ok S ↔
          (S ∈ sessions ∧ S.session_id = session_id ∧ S.is_terminated = false ∧
           now < S.expires_at))
    ∧ (∀ e, SessionRepository.get_by_id sessions now session_id = Except.error e →
        e = Err.sessionNotFound "session_id") := by
  constructor
  · intro S
    constructor
    · intro h
      unfold SessionRepository.get_by_id at h
      cases hf : sessions.find? (sessionValidFilter session_id now) with
      | none => rw [hf] at h; cases h
      | some r =>
        rw [hf] at h
        cases h
        have hmem := List.mem_of_find?_eq_some hf
        have hp := List.find?_some hf
        rw [sessionValidFilter_iff] at hp
        exact ⟨hmem, hp.1, hp.2.2, hp.2.1⟩
    · rintro ⟨hmem, hid, hterm, hexp⟩
      have hpS : sessionValidFilter session_id now S = true := by
        rw [sessionValidFilter_iff]
        exact ⟨hid, hexp, hterm⟩
      cases hf : sessions.find? (sessionValidFilter session_id now) with
      | none =>
        rw [List.find?_eq_none] at hf
        exact absurd hpS (by simpa using hf S hmem)
      | some r =>
        have hmemr := List.mem_of_find?_eq_some hf
        have hpr := List.find?_some hf
        rw [sessionValidFilter_iff] at hpr
        have hrS : r = S :=
          List.inj_on_of_nodup_map huniq hmemr hmem (by rw [hpr.1, hid])
        unfold SessionRepository.get_by_id
        rw [hf, hrS]
  · intro e h
    unfold SessionRepository.get_by_id at h
    cases hf : sessions.find? (sessionValidFilter session_id now) with
    | none =>
      rw [hf] at h
      cases h
      rfl
    | some r => rw [hf] at h; cases h

theorem c1_witness :
    SessionRepository.get_by_id [⟨1, 7, "h", 900, false⟩] 0 1 =
      Except.ok ⟨1, 7, "h", 900, false⟩ :=
  ((c1_get_valid_characterization [⟨1, 7, "h", 900, false⟩] 0 1 (by decide)).1
      ⟨1, 7, "h", 900, false⟩).mpr (by decide)

/-- With unique session ids, at most one row matches a given id. -/
lemma countP_session_id_le_one (sessions : List Session) (session_id : Nat)
    (huniq : (sessions.map Session.session_id).Nodup) :
    sessions.countP (fun s => s.session_id == session_id) ≤ 1 := by
  induction sessions with
  | nil => simp
  | cons a rest ih =>
    rw [List.map_cons, List.nodup_cons] at huniq
    rw [List.countP_cons]
    by_cases ha : a.session_id = session_id
    · have hz : rest.countP (fun s => s.session_id == session_id) = 0 := by
        rw [List.countP_eq_zero]
        intro b hb
        simp only [beq_iff_eq]
        intro hbeq
        exact huniq.1
          (by rw [ha, ← hbeq]; exact List.mem_map_of_mem Session.session_id hb)
      simp [hz, ha]
    · have hpa : (if (a.session_id == session_id) = true then 1 else 0) = 0 := by
        simp [ha]
      rw [hpa]
      simpa using ih huniq.2

/-- C5 counterexample: the claim says terminating a session a second time
fails with SessionNotFound; in the code the UPDATE's WHERE clause filters
only on `session_id`, so the already-terminated row still matches and the
second call succeeds as well. -/
theorem c5_counterexample_double_terminate :
    (SessionRepository.terminate [⟨1, 7, "h1", 1000, false⟩] 1).fst = Except.ok ()
    ∧ (SessionRepository.terminate
        (SessionRepository.terminate [⟨1, 7, "h1", 1000, false⟩] 1).snd 1).fst =
          Except.ok () := by decide

/-- The result component of `terminate`, as a plain conditional. -/
lemma terminate_fst (sessions : List Session) (session_id : Nat) :
    (SessionRepository.terminate sessions session_id).fst =
      if sessions.countP (fun s => s.session_id == session_id) = 1 then Except.ok ()
      else Except.error (Err.sessionNotFound "session_id") := by
  by_cases h : sessions.countP (fun s => s.session_id == session_id) = 1
  · simp [SessionRepository.terminate, h]
  · simp [SessionRepository.terminate, beq_iff_eq, h]

/-- The state component of `terminate`: the UPDATE applies to every row
matching the id, whether or not the count check then raises. -/
lemma terminate_snd (sessions : List Session) (session_id : Nat) :
    (SessionRepository.terminate sessions session_id).snd =
      sessions.map (fun s =>
        if s.session_id == session_id then { s with is_terminated := true } else s) := by
  by_cases h : sessions.countP (fun s => s.session_id == session_id) = 1
  · simp [SessionRepository.terminate, h]
  · simp [SessionRepository.terminate, beq_iff_eq, h]

/-- C5 (amended): terminate fails with SessionNotFound exactly when no
session with the given id exists (regardless of its state); terminating a
stored session succeeds, and terminating it again also succeeds — double
termination is a no-op success, not an error. -/
theorem c5_terminate_amended (sessions : List Session) (session_id : Nat)
    (huniq : (sessions.map Session.session_id).Nodup) :
    ((∀ s ∈ sessions, s.session_id ≠ session_id) →
        (SessionRepository.terminate sessions session_id).fst =
          Except.error (Err.sessionNotFound "session_id"))
    ∧ (∀ s ∈ sessions, s.session_id = session_id →
        (SessionRepository.terminate sessions session_id).fst = Except.ok ()
        ∧ (SessionRepository.terminate
            (SessionRepository.terminate sessions session_id).snd session_id).fst =
              Except.ok ()) := by
  constructor
  · intro hnone
    have hz : sessions.countP (fun s => s.session_id == session_id) = 0 := by
      rw [List.countP_eq_zero]
      intro b hb
      simpa using hnone b hb
    rw [terminate_fst, hz]
    simp
  · intro s hs hsid
    have hpos : 0 < sessions.countP (fun s => s.session_id == session_id) :=
      List.countP_pos_iff.mpr ⟨s, hs, by simp [hsid]⟩
    have hone : sessions.countP (fun s => s.session_id == session_id) = 1 :=
      Nat.le_antisymm (countP_session_id_le_one sessions session_id huniq) hpos
    have hsnd : (SessionRepository.terminate sessions session_id).snd.countP
        (fun s => s.session_id == session_id) = 1 := by
      rw [terminate_snd, List.countP_map, ← hone]
      apply List.countP_congr
      intro b _
      by_cases hb : b.session_id = session_id
      · simp [Function.comp, hb]
      · simp [Function.comp, hb]
    refine ⟨by rw [terminate_fst, hone]; simp, ?_⟩
    rw [terminate_fst, hsnd]
    simp

theorem c5_witness :
    (SessionRepository.terminate [⟨2, 8, "h2", 500, true⟩] 3).fst =
      Except.error (Err.sessionNotFound "session_id") :=
  (c5_terminate_amended [⟨2, 8, "h2", 500, true⟩] 3 (by decide)).1 (by decide)

/-- The result component of `refresh`, as a plain conditional. -/
lemma refresh_fst (sessions : List Session) (now : Int) (session_id : Nat) :
    (SessionRepository.refresh sessions now session_id).fst =
      if sessions.any (sessionValidFilter session_id now) then Except.ok (now + 15 * 60)
      else Except.error (Err.sessionNotFound "session_id") := by
  by_cases h : sessions.any (sessionValidFilter session_id now)
  · simp [SessionRepository.refresh, h]
  · simp only [SessionRepository.refresh]
    rw [if_neg (by simpa using h), if_neg (by simpa using h)]

/-- The state component of `refresh`: the conditional UPDATE applied to
every matching valid row. -/
lemma refresh_snd (sessions : List Session) (now : Int) (session_id : Nat) :
    (SessionRepository.refresh sessions now session_id).snd =
      sessions.map (fun s =>
        if sessionValidFilter session_id now s then { s with expires_at := now + 15 * 60 }
        else s) := by
  by_cases h : sessions.any (sessionValidFilter session_id now)
  · simp [SessionRepository.refresh, h]
  · simp only [SessionRepository.refresh]
    rw [if_neg (by simpa using h)]

/-- C6 counterexample: the claim says a successful refresh strictly
increases the expiry; on a session whose expiry is exactly now + 15
minutes (e.g. refreshed twice at the same timestamp) the refresh succeeds
but rewrites the same expiry, leaving the row unchanged. -/
theorem c6_counterexample_no_strict_increase :
    SessionRepository.refresh [⟨1, 7, "h1", 900, false⟩] 0 1 =
      (Except.ok 900, [⟨1, 7, "h1", 900, false⟩]) := by decide

/-- C6 (amended): refresh succeeds exactly on a currently-valid session
(matching id, unexpired, not terminated) and sets its expiry to now + 15
minutes, which strictly increases the expiry whenever the old expiry was
earlier than now + 15 minutes; on any invalid or nonexistent session it
fails with SessionNotFound and leaves the table completely unchanged. -/
theorem c6_refresh_amended (sessions : List Session) (now : Int) (session_id : Nat) :
    ((SessionRepository.refresh sessions now session_id).fst =
        Except.ok (now + 15 * 60) ↔
      ∃ s ∈ sessions, s.session_id = session_id ∧ now < s.expires_at ∧
        s.is_terminated = false)
    ∧ (∀ e, (SessionRepository.refresh sessions now session_id).fst = Except.error e →
        (e = Err.sessionNotFound "session_id"
         ∧ (SessionRepository.refresh sessions now session_id).snd = sessions))
    ∧ (∀ s ∈ sessions, s.session_id = session_id → now < s.expires_at →
        s.is_terminated = false →
        ({ s with expires_at := now + 15 * 60 } : Session) ∈
            (SessionRepository.refresh sessions now session_id).snd
        ∧ (s.expires_at < now + 15 * 60 →
            s.expires_at < ({ s with expires_at := now + 15 * 60 } : Session).expires_at)) := by
  refine ⟨?_, ?_, ?_⟩
  · rw [refresh_fst]
    by_cases h : sessions.any (sessionValidFilter session_id now)
    · rw [if_pos h]
      rw [List.any_eq_true] at h
      obtain ⟨s, hs, hp⟩ := h
      rw [sessionValidFilter_iff] at hp
      exact ⟨fun _ => ⟨s, hs, hp⟩, fun _ => rfl⟩
    · rw [if_neg h]
      constructor
      · intro hc
        cases hc
      · rintro ⟨s, hs, hid, hexp, hterm⟩
        exact absurd (List.any_eq_true.mpr
          ⟨s, hs, (sessionValidFilter_iff session_id now s).mpr ⟨hid, hexp, hterm⟩⟩) h
  · intro e he
    rw [refresh_fst] at he
    by_cases h : sessions.any (sessionValidFilter session_id now)
    · rw [if_pos h] at he
      cases he
    · rw [if_neg h] at he
      cases he
      refine ⟨rfl, ?_⟩
      rw [refresh_snd]
      apply map_eq_self_of_fixes
      intro x hx
      rw [if_neg]
      intro hpx
      exact h (List.any_eq_true.mpr ⟨x, hx, hpx⟩)
  · intro s hs hid hexp hterm
    have hps : sessionValidFilter session_id now s = true :=
      (sessionValidFilter_iff session_id now s).mpr ⟨hid, hexp, hterm⟩
    constructor
    · rw [refresh_snd]
      have hupd : ({ s with expires_at := now + 15 * 60 } : Session) =
          (fun t => if sessionValidFilter session_id now t then
              { t with expires_at := now + 15 * 60 } else t) s := by
        show ({ s with expires_at := now + 15 * 60 } : Session) =
          if sessionValidFilter session_id now s = true then
            { s with expires_at := now + 15 * 60 } else s
        rw [if_pos hps]
      rw [hupd]
      exact List.mem_map_of_mem _ hs
    · intro hlt
      exact hlt

theorem c6_witness :
    (SessionRepository.refresh [⟨1, 7, "h", 10, false⟩] 0 1).fst =
      Except.ok (0 + 15 * 60) :=
  (c6_refresh_amended [⟨1, 7, "h", 10, false⟩] 0 1).1.mpr
    ⟨⟨1, 7, "h", 10, false⟩, by decide⟩

/-- C8: the purge sweep deletes a session exactly when its expiry plus the
1-month grace interval is strictly in the past; since adding the interval
never moves a timestamp backwards, no session inside the grace window —
in particular no currently-valid session — is deleted, and every session
expired for longer than the grace window is deleted. -/
theorem c8_purge_grace_window (addMonth : Int → Int) (sessions : List Session)
    (now : Int) (hmono : ∀ t : Int, t ≤ addMonth t) :
    (∀ s : Session,
        s ∈ SessionRepository.clean_expired addMonth sessions now ↔
          (s ∈ sessions ∧ ¬(addMonth s.expires_at < now)))
    ∧ (∀ s ∈ sessions, now < s.expires_at →
        s ∈ SessionRepository.clean_expired addMonth sessions now)
    ∧ (∀ s ∈ sessions, addMonth s.expires_at < now →
        s ∉ SessionRepository.clean_expired addMonth sessions now) := by
  have hmem : ∀ s : Session,
      s ∈ SessionRepository.clean_expired addMonth sessions now ↔
        (s ∈ sessions ∧ ¬(addMonth s.expires_at < now)) := by
    intro s
    simp [SessionRepository.clean_expired, List.mem_filter]
  refine ⟨hmem, ?_, ?_⟩
  · intro s hs hvalid
    refine (hmem s).mpr ⟨hs, ?_⟩
    have hle := hmono s.expires_at
    omega
  · intro s hs hold hc
    exact ((hmem s).mp hc).2 hold

theorem c8_witness :
    (⟨1, 7, "h", -2592001, false⟩ : Session) ∉
      SessionRepository.clean_expired (fun t => t + 2592000)
        [⟨1, 7, "h", -2592001, false⟩] 0 :=
  (c8_purge_grace_window (fun t => t + 2592000) [⟨1, 7, "h", -2592001, false⟩] 0
      (fun t => by show t ≤ t + 2592000; omega)).2.2
    ⟨1, 7, "h", -2592001, false⟩ (by decide) (by decide)

/-! ## Claims about the identity resolver -/

/-- Every failure of `get_by_id` carries the one SessionNotFound error. -/
lemma get_by_id_error_eq {sessions : List Session} {now : Int} {session_id : Nat}
    {e : Err}
    (h : SessionRepository.get_by_id sessions now session_id = Except.error e) :
    e = Err.sessionNotFound "session_id" := by
  unfold SessionRepository.get_by_id at h
  cases hf : sessions.find? (sessionValidFilter session_id now) with
  | none => rw [hf] at h; cases h; rfl
  | some t => rw [hf] at h; cases h

/-- A session returned by `get_by_id` is stored, has the requested id, is
unexpired and is not terminated. -/
lemma get_by_id_ok_props {sessions : List Session} {now : Int} {session_id : Nat}
    {r : Session}
    (h : SessionRepository.get_by_id sessions now session_id = Except.ok r) :
    r ∈ sessions ∧ r.session_id = session_id ∧ now < r.expires_at ∧
      r.is_terminated = false := by
  unfold SessionRepository.get_by_id at h
  cases hf : sessions.find? (sessionValidFilter session_id now) with
  | none => rw [hf] at h; cases h
  | some t =>
    rw [hf] at h
    cases h
    have hp := List.find?_some hf
    rw [sessionValidFilter_iff] at hp
    exact ⟨List.mem_of_find?_eq_some hf, hp.1, hp.2.1, hp.2.2⟩

/-- `get_by_id` on an id that no stored session carries fails. -/
lemma get_by_id_not_found {sessions : List Session} {now : Int} {session_id : Nat}
    (h : ∀ t ∈ sessions, t.session_id ≠ session_id) :
    SessionRepository.get_by_id sessions now session_id =
      Except.error (Err.sessionNotFound "session_id") := by
  unfold SessionRepository.get_by_id
  have hf : sessions.find? (sessionValidFilter session_id now) = none := by
    rw [List.find?_eq_none]
    intro t ht hc
    rw [sessionValidFilter_iff] at hc
    exact h t ht hc.1
  rw [hf]

/-- Every failure of `get_user_permissions` carries the one UserNotFound
error. -/
lemma get_user_permissions_error_eq {ups : List UserPermission} {users : List User}
    {user_id : Nat} {e : Err}
    (h : UserRepository.get_user_permissions ups users user_id = Except.error e) :
    e = Err.userNotFound "user_id" := by
  unfold UserRepository.get_user_permissions at h
  dsimp only [] at h
  by_cases h1 : ((sortSlugs (List.map (fun up => up.permission)
      (List.filter (fun up => up.user_id == user_id) ups))).length == 0) = true
  · rw [if_pos h1] at h
    by_cases h2 : (users.any fun u => u.id == user_id && u.is_active) = true
    · rw [if_pos h2] at h
      cases h
    · rw [if_neg h2] at h
      cases h
      rfl
  · rw [if_neg h1] at h
    cases h

/-- The resolver after a successful session load, with the session lookup
match discharged. -/
lemma get_session_eq_of_valid {sha3 : String → String}
    {ip_parse : String → Option String} {sessions : List Session}
    {users : List User} {ups : List UserPermission} {now : Int}
    {request : RequestInfo} {session_id : Nat} {r : Session}
    (h : SessionRepository.get_by_id sessions now session_id = Except.ok r) :
    get_session sha3 ip_parse sessions users ups now request session_id =
      match UserRepository.get_user_permissions ups users r.user_id with
      | Except.error (Err.sessionNotFound _) => Except.error Err.sessionInvalidOrExpired
      | Except.error (Err.userNotFound _) => Except.error Err.sessionInvalidOrExpired
      | Except.error e => Except.error e
      | Except.ok permissions =>
        if verify_hash sha3 (get_client_ip ip_parse request) r.ip_addr then
          Except.ok { session_id := r.session_id, user_id := r.user_id,
                      permissions := permissions }
        else Except.error Err.sessionInvalidOrExpired := by
  unfold get_session
  rw [h]

/-- The resolver collapses any session-load failure into
SessionInvalidOrExpired. -/
lemma get_session_eq_of_error {sha3 : String → String}
    {ip_parse : String → Option String} {sessions : List Session}
    {users : List User} {ups : List UserPermission} {now : Int}
    {request : RequestInfo} {session_id : Nat} {e : Err}
    (h : SessionRepository.get_by_id sessions now session_id = Except.error e) :
    get_session sha3 ip_parse sessions users ups now request session_id =
      Except.error Err.sessionInvalidOrExpired := by
  have he := get_by_id_error_eq h
  subst he
  unfold get_session
  rw [h]

/-- C2: resolving an identity for a stored session whose ip_addr hash
differs from the hash of the request's client IP fails with
SessionInvalidOrExpired — the very same error value, and hence HTTP 403
status, produced for a session id that is not stored at all; the two
rejections are observationally identical to the caller. -/
theorem c2_ip_mismatch_indistinguishable
    (sha3 : String → String) (ip_parse : String → Option String)
    (sessions : List Session) (users : List User) (ups : List UserPermission)
    (now : Int) (request : RequestInfo) (s : Session) (other_id : Nat)
    (hmem : s ∈ sessions) (huniq : (sessions.map Session.session_id).Nodup)
    (hmismatch : sha3 (get_client_ip ip_parse request) ≠ s.ip_addr)
    (hother : ∀ t ∈ sessions, t.session_id ≠ other_id) :
    get_session sha3 ip_parse sessions users ups now request s.session_id =
        Except.error Err.sessionInvalidOrExpired
    ∧ get_session sha3 ip_parse sessions users ups now request other_id =
        Except.error Err.sessionInvalidOrExpired
    ∧ get_session sha3 ip_parse sessions users ups now request s.session_id =
        get_session sha3 ip_parse sessions users ups now request other_id
    ∧ statusOf Err.sessionInvalidOrExpired = 403 := by
  have h1 : get_session sha3 ip_parse sessions users ups now request s.session_id =
      Except.error Err.sessionInvalidOrExpired := by
    cases hg : SessionRepository.get_by_id sessions now s.session_id with
    | error e => exact get_session_eq_of_error hg
    | ok r =>
      obtain ⟨hrmem, hrid, _, _⟩ := get_by_id_ok_props hg
      have hrs : r = s := List.inj_on_of_nodup_map huniq hrmem hmem hrid
      subst hrs
      rw [get_session_eq_of_valid hg]
      cases hp : UserRepository.get_user_permissions ups users r.user_id with
      | error e2 =>
        have he2 := get_user_permissions_error_eq hp
        subst he2
        rfl
      | ok perms =>
        have hv : verify_hash sha3 (get_client_ip ip_parse request) r.ip_addr = false := by
          simp only [verify_hash, hash_string, beq_eq_false_iff_ne, ne_eq]
          exact hmismatch
        rw [hv]
        simp
  have h2 : get_session sha3 ip_parse sessions users ups now request other_id =
      Except.error Err.sessionInvalidOrExpired :=
    get_session_eq_of_error (get_by_id_not_found hother)
  exact ⟨h1, h2, by rw [h1, h2], rfl⟩

theorem c2_witness :
    get_session (fun _ => "H2") (fun str => some str) [⟨1, 7, "H1", 1000, false⟩]
        [⟨7, "e", "p", "c", none, true⟩] [] 0 ⟨none, none, some "9.9.9.9"⟩ 1 =
      Except.error Err.sessionInvalidOrExpired
    ∧ get_session (fun _ => "H2") (fun str => some str) [⟨1, 7, "H1", 1000, false⟩]
        [⟨7, "e", "p", "c", none, true⟩] [] 0 ⟨none, none, some "9.9.9.9"⟩ 2 =
      Except.error Err.sessionInvalidOrExpired :=
  have h := c2_ip_mismatch_indistinguishable (fun _ => "H2") (fun str => some str)
    [⟨1, 7, "H1", 1000, false⟩] [⟨7, "e", "p", "c", none, true⟩] [] 0
    ⟨none, none, some "9.9.9.9"⟩ ⟨1, 7, "H1", 1000, false⟩ 2
    (by decide) (by decide) (by decide) (by decide)
  ⟨h.1, h.2.1⟩

/-! ## Claims about the login flow -/

/-- The active-user email lookup fails when no stored active user carries
the looked-up email. -/
lemma get_by_email_id_not_found {users : List User} {email_id : String}
    (h : ∀ u ∈ users, ¬(u.email_id = email_id ∧ u.is_active = true)) :
    UserRepository.get_by_email_id users email_id =
      Except.error (Err.userNotFound "email_id") := by
  unfold UserRepository.get_by_email_id
  have hf : users.find? (fun u => u.email_id == email_id && u.is_active) = none := by
    rw [List.find?_eq_none]
    intro u hu hc
    rw [Bool.and_eq_true, beq_iff_eq] at hc
    exact h u hu ⟨hc.1, hc.2⟩
  rw [hf]

/-- Login propagates the email-lookup failure and leaves the session
table untouched. -/
lemma login_eq_of_lookup_error {argon2_verify : String → String → Bool}
    {sha3 : String → String} {ip_parse : String → Option String}
    {users : List User} {sessions : List Session} {ups : List UserPermission}
    {now : Int} {new_session_id : Nat} {request : RequestInfo}
    {email_id password : String} {e : Err}
    (h : UserRepository.get_by_email_id users (py_lower email_id) = Except.error e) :
    login argon2_verify sha3 ip_parse users sessions ups now new_session_id
        request email_id password = (Except.error e, sessions) := by
  unfold login
  rw [h]

/-- Login fails with PasswordIncorrect and leaves the session table
untouched when the credential verifier rejects the password. -/
lemma login_eq_of_password_mismatch {argon2_verify : String → String → Bool}
    {sha3 : String → String} {ip_parse : String → Option String}
    {users : List User} {sessions : List Session} {ups : List UserPermission}
    {now : Int} {new_session_id : Nat} {request : RequestInfo}
    {email_id password : String} {u : User}
    (h : UserRepository.get_by_email_id users (py_lower email_id) = Except.ok u)
    (hv : argon2_verify u.password password = false) :
    login argon2_verify sha3 ip_parse users sessions ups now new_session_id
        request email_id password = (Except.error Err.passwordIncorrect, sessions) := by
  unfold login
  split
  · next e heq =>
    rw [h] at heq
    cases heq
  · next u2 heq =>
    rw [h] at heq
    cases heq
    rw [hv]
    simp

/-- C7: login looks the user up by the lowercased email; an absent (or
inactive) user yields the UserNotFound error with HTTP 404, a present
user with a failing password verification yields the distinct
PasswordIncorrect error with HTTP 400, and in both failure cases the
session table is returned unchanged — no session is created. -/
theorem c7_login_error_paths
    (argon2_verify : String → String → Bool) (sha3 : String → String)
    (ip_parse : String → Option String) (users : List User)
    (sessions : List Session) (ups : List UserPermission) (now : Int)
    (new_session_id : Nat) (request : RequestInfo) (email_id password : String) :
    ((∀ u ∈ users, ¬(u.email_id = py_lower email_id ∧ u.is_active = true)) →
        login argon2_verify sha3 ip_parse users sessions ups now new_session_id
            request email_id password =
          (Except.error (Err.userNotFound "email_id"), sessions)
        ∧ statusOf (Err.userNotFound "email_id") = 404)
    ∧ (∀ u : User,
        UserRepository.get_by_email_id users (py_lower email_id) = Except.ok u →
        argon2_verify u.password password = false →
        login argon2_verify sha3 ip_parse users sessions ups now new_session_id
            request email_id password =
          (Except.error Err.passwordIncorrect, sessions)
        ∧ statusOf Err.passwordIncorrect = 400)
    ∧ Err.userNotFound "email_id" ≠ Err.passwordIncorrect := by
  refine ⟨?_, ?_, by decide⟩
  · intro habsent
    exact ⟨login_eq_of_lookup_error (get_by_email_id_not_found habsent), rfl⟩
  · intro u hu hv
    exact ⟨login_eq_of_password_mismatch hu hv, rfl⟩

theorem c7_witness :
    login (fun _ _ => true) (fun _ => "H") (fun str => some str) [] [] [] 0 5
        ⟨none, none, none⟩ "E@x.com" "pw" =
      (Except.error (Err.userNotFound "email_id"), [])
    ∧ statusOf (Err.userNotFound "email_id") = 404 :=
  (c7_login_error_paths (fun _ _ => true) (fun _ => "H") (fun str => some str)
      [] [] [] 0 5 ⟨none, none, none⟩ "E@x.com" "pw").1 (by simp)

/-- C10: for a user whose is_active flag is false, login with that user's
email fails with exactly the same UserNotFound error, and the same
untouched session table, as login with an email that no stored user
carries at all: the email lookup filters on is_active = TRUE, so
deactivation and nonexistence are indistinguishable at login. -/
theorem c10_inactive_login_indistinguishable
    (argon2_verify : String → String → Bool) (sha3 : String → String)
    (ip_parse : String → Option String) (users othv : List User)
    (sessions sessions2 : List Session) (ups ups2 : List UserPermission)
    (now now2 : Int) (new_session_id nsid2 : Nat) (request request2 : RequestInfo)
    (email_id password password2 : String)
    (hinactive : ∀ u ∈ users, u.email_id = py_lower email_id → u.is_active = false)
    (habsent : ∀ u ∈ othv, u.email_id ≠ py_lower email_id) :
    login argon2_verify sha3 ip_parse users sessions ups now new_session_id
        request email_id password =
      (Except.error (Err.userNotFound "email_id"), sessions)
    ∧ login argon2_verify sha3 ip_parse othv sessions2 ups2 now2 nsid2
        request2 email_id password2 =
      (Except.error (Err.userNotFound "email_id"), sessions2)
    ∧ (login argon2_verify sha3 ip_parse users sessions ups now new_session_id
        request email_id password).fst =
      (login argon2_verify sha3 ip_parse othv sessions2 ups2 now2 nsid2
        request2 email_id password2).fst := by
  have h1 : login argon2_verify sha3 ip_parse users sessions ups now new_session_id
      request email_id password =
      (Except.error (Err.userNotFound "email_id"), sessions) :=
    login_eq_of_lookup_error (get_by_email_id_not_found (by
      intro u hu hc
      have := hinactive u hu hc.1
      rw [this] at hc
      cases hc.2))
  have h2 : login argon2_verify sha3 ip_parse othv sessions2 ups2 now2 nsid2
      request2 email_id password2 =
      (Except.error (Err.userNotFound "email_id"), sessions2) :=
    login_eq_of_lookup_error (get_by_email_id_not_found (by
      intro u hu hc
      exact habsent u hu hc.1))
  exact ⟨h1, h2, by rw [h1, h2]⟩

theorem c10_witness :
    login (fun _ _ => true) (fun _ => "H") (fun str => some str)
        [⟨7, "a@x.com", "ph", "c", none, false⟩] [] [] 0 5 ⟨none, none, none⟩
        "A@x.com" "pw" =
      (Except.error (Err.userNotFound "email_id"), [])
    ∧ login (fun _ _ => true) (fun _ => "H") (fun str => some str)
        [] [] [] 0 5 ⟨none, none, none⟩ "A@x.com" "pw" =
      (Except.error (Err.userNotFound "email_id"), []) :=
  have h := c10_inactive_login_indistinguishable (fun _ _ => true) (fun _ => "H")
    (fun str => some str) [⟨7, "a@x.com", "ph", "c", none, false⟩] [] [] [] [] []
    0 0 5 5 ⟨none, none, none⟩ ⟨none, none, none⟩ "A@x.com" "pw" "pw"
    (by decide) (by simp)
  ⟨h.1, h.2.1⟩
